import Mathlib

/-!
# Verification of the conflict-simulator turn engine

A shallow embedding of the backend core of the Konfliktloesung simulator
(`src/backend/src/core/{state,router,graph,agents}.py` and the websocket
handlers) together with proofs about the turn router, the streaming turn
executor, the interrupt behaviour, the response cleanup and the session
operations.

Python strings are modelled by `String`, Python `int` by `Int` (Python's `%`
on a positive modulus agrees with `Int.emod`), LangChain messages by
`PyMessage` (a `HumanMessage` has kind `human`, an `AIMessage` kind `ai`; the
`name` attribute is an `Option String`).  The language-model collaborator is
an oracle (`LLMTurn`: a finite list of streamed chunk contents, an optional
exception raised at the end of the stream, and the result of the
non-streaming `ainvoke` variant).  The per-session interrupt flag is `false`
at run start and is only ever set to `true` by `interrupt_session`, so inside
one run it is faithfully represented by the clock tick `intrAt : Option Nat`
at which it becomes `true`; every read of the flag ticks the clock.
-/

/-- ASCII whitespace stripped by Python's `str.strip()`. -/
def pyIsSpace (c : Char) : Bool :=
  c = ' ' || c = '\t' || c = '\n' || c = '\r' || c = '\x0b' || c = '\x0c'

/-- Python `str.strip()` (on the ASCII whitespace the repository produces). -/
def pyStrip (s : String) : String :=
  ⟨((s.data.dropWhile pyIsSpace).reverse.dropWhile pyIsSpace).reverse⟩

/-- Python `str.lower()` (the personas in the repository use ASCII names). -/
def pyLower (s : String) : String :=
  ⟨s.data.map Char.toLower⟩

/-- Python `str.upper()`. -/
def pyUpper (s : String) : String :=
  ⟨s.data.map Char.toUpper⟩

/-- Python `str.startswith`, character-by-character. -/
def strStartsWith (s p : String) : Bool :=
  p.data.isPrefixOf s.data

/-- Python slicing `s[n:]` (character based). -/
def strDrop (s : String) (n : Nat) : String :=
  ⟨s.data.drop n⟩

/-- Python `len` on a string (character count). -/
def strLen (s : String) : Nat :=
  s.data.length

/-- The two LangChain message classes appearing in the transcript
(`HumanMessage` and `AIMessage`). -/
inductive PyMsgKind
  | human
  | ai
deriving DecidableEq

/-- A transcript entry: message class, `content`, and the `name` attribute. -/
structure PyMessage where
  kind : PyMsgKind
  content : String
  name : Option String
deriving DecidableEq

/-- `AgentConfig` from `core/state.py`. -/
structure AgentConfig where
  name : String
  prompt : String
deriving DecidableEq

/-- `SimulationState` from `core/state.py`.  `next_speaker = none` models the
key being unset/`None`; `turns` is a Python `int`. -/
structure SimState where
  messages : List PyMessage
  session_id : String
  mode : String
  next_speaker : Option String
  turns : Int
  agent_a_config : AgentConfig
  agent_b_config : AgentConfig
  user_role : Option String
  should_stop : Bool
deriving DecidableEq

/-- Python truthiness of `state.get("next_speaker")`: `None` and the empty
string are falsy. -/
def isTruthyOpt : Option String → Bool
  | none => false
  | some v => !(v == "")

/-- `route_next_speaker` from `core/router.py`, translated branch for branch:
stop flag first, then an explicitly set `next_speaker`, then the fallback on
the last transcript entry. -/
def route_next_speaker (s : SimState) : String :=
  if s.should_stop then "evaluator"
  else if isTruthyOpt s.next_speaker then s.next_speaker.getD "agent_a"
  else
    match s.messages.getLast? with
    | none => "agent_a"
    | some last =>
      if s.mode = "mediator" then
        if last.name = some "agent_a" then "agent_b"
        else if last.name = some "agent_b" then
          (if s.turns % 4 = 0 then "human" else "agent_a")
        else if last.kind = PyMsgKind.human then "agent_a"
        else "agent_a"
      else if s.mode = "participant" then
        if s.user_role = some "agent_a" then
          (if last.name = some "agent_b" ∨ last.kind = PyMsgKind.human then "agent_b" else "human")
        else if s.user_role = some "agent_b" then
          (if last.name = some "agent_a" ∨ last.kind = PyMsgKind.human then "agent_a" else "human")
        else "agent_a"
      else "agent_a"

/-- `determine_expected_role` from `core/router.py`. -/
def determine_expected_role (s : SimState) : String :=
  if s.mode = "mediator" then "mediator"
  else if s.mode = "participant" then
    if s.user_role = some "agent_a" then "agent_a"
    else if s.user_role = some "agent_b" then "agent_b"
    else "mediator"
  else "mediator"

/-- The five self-announcement variants removed by
`ConflictSimulator._clean_agent_response` in `core/graph.py`, in source
order. -/
def selfNameVariants (agentName : String) : List String :=
  [agentName ++ ":", pyLower agentName ++ ":", pyUpper agentName ++ ":",
   "**" ++ agentName ++ "**:", "*" ++ agentName ++ "*:"]

/-- `ConflictSimulator._clean_agent_response`: strip the content, remove the
first matching leading name variant (case-insensitively), strip again. -/
def clean_agent_response (content agentName : String) : String :=
  match (selfNameVariants agentName).find?
      (fun p => strStartsWith (pyLower (pyStrip content)) (pyLower p)) with
  | some p => pyStrip (strDrop (pyStrip content) (strLen p))
  | none => pyStrip content

/-- The wire events emitted by the executor (graph.py) and forwarded by
`send_event` in `api/websocket.py`. -/
inductive Event
  | typing (agent : String) (agentName : String)
  | streamingChunk (agent : String) (agentName : String) (chunk : String)
  | agentMessage (agent : String) (agentName : String) (content : String)
  | waitingForInput (expectedRole : String)
  | waitingForDecision (suggestedNext suggestedNextName agentAName agentBName : String)
  | evaluation (content : String)
  | errorEvent (message : String)
deriving DecidableEq

/-- Whether an event is an `agent_message` event. -/
def isAgentMessageEv : Event → Bool
  | Event.agentMessage _ _ _ => true
  | _ => false

/-- One language-model call, as seen by an agent node: the contents of the
chunks `llm.astream` yields (in order), an exception the stream raises after
those chunks (if any), and the result of the non-streaming `ainvoke`
fallback. -/
structure LLMTurn where
  stream : List String
  streamErr : Option String
  nonStream : Except String String

/-- What a node generator produces: the `(chunk, is_final)` pairs it yields,
an exception it raises after those yields (if any), and how many times it
invoked the non-streaming model. -/
structure NodeRun where
  yields : List (String × Bool)
  err : Option String
  nonStreamCalls : Nat

/-- `agent_a_node_streaming` from `core/agents.py`: yield each non-empty
chunk with `is_final = False`, re-raise a streaming exception, and finally
yield the accumulated response with `is_final = True`.  There is no
non-streaming fallback for agent A. -/
def agent_a_node_streaming (llm : LLMTurn) : NodeRun :=
  let cs := llm.stream.filter (fun c => !(c == ""))
  let ys := cs.map (fun c => (c, false))
  match llm.streamErr with
  | some e => ⟨ys, some e, 0⟩
  | none => ⟨ys ++ [(String.join cs, true)], none, 0⟩

/-- `agent_b_node_streaming` from `core/agents.py`: like agent A, but when
the streamed response is empty it performs one non-streaming `ainvoke`
(whose own exception is caught and ignored) before the final yield. -/
def agent_b_node_streaming (llm : LLMTurn) : NodeRun :=
  let cs := llm.stream.filter (fun c => !(c == ""))
  let ys := cs.map (fun c => (c, false))
  match llm.streamErr with
  | some e => ⟨ys, some e, 0⟩
  | none =>
    let full := String.join cs
    if full = "" then
      match llm.nonStream with
      | Except.ok c =>
        if c = "" then ⟨ys ++ [("", true)], none, 1⟩
        else ⟨ys ++ [(c, false), (c, true)], none, 1⟩
      | Except.error _ => ⟨ys ++ [("", true)], none, 1⟩
    else ⟨ys ++ [(full, true)], none, 0⟩

/-- `evaluator_node_streaming` from `core/agents.py`: yield each non-empty
chunk, propagate a streaming exception, finally yield the accumulated
response. -/
def evaluator_node_streaming (llm : LLMTurn) : NodeRun :=
  let cs := llm.stream.filter (fun c => !(c == ""))
  let ys := cs.map (fun c => (c, false))
  match llm.streamErr with
  | some e => ⟨ys, some e, 0⟩
  | none => ⟨ys ++ [(String.join cs, true)], none, 0⟩

/-- Reading the per-session interrupt flag at clock tick `t`: the flag is
`true` from tick `n` on when `intrAt = some n`, never when `intrAt = none`. -/
def intrHit : Option Nat → Nat → Bool
  | none, _ => false
  | some n, t => decide (n ≤ t)

/-- Result of the chunk-consumption loop inside `run_with_streaming`. -/
structure ConsumeResult where
  fullContent : String
  events : List Event
  clock : Nat
  interruptedMid : Bool

/-- The `async for chunk, is_final in ..._node_streaming(state)` loop of
`ConflictSimulator.run_with_streaming`: check the interrupt flag before each
received pair (breaking wholesale when it is set), record `full_content` on
the final pair, and emit a `streaming_chunk` event for every other pair. -/
def consumeStream (intrAt : Option Nat) (ag nm : String) :
    List (String × Bool) → Nat → String → ConsumeResult
  | [], t, acc => ⟨acc, [], t, false⟩
  | (c, fin) :: rest, t, acc =>
    if intrHit intrAt t then ⟨acc, [], t, true⟩
    else if fin then consumeStream intrAt ag nm rest (t + 1) c
    else
      let r := consumeStream intrAt ag nm rest (t + 1) acc
      ⟨r.fullContent, Event.streamingChunk ag nm c :: r.events, r.clock, r.interruptedMid⟩

/-- The `"a"`/`"b"` wire tag of an agent. -/
def agentWire (isA : Bool) : String :=
  if isA then "a" else "b"

/-- The `agent_a`/`agent_b` transcript tag of an agent. -/
def agentTagOf (isA : Bool) : String :=
  if isA then "agent_a" else "agent_b"

/-- The display name of an agent, from the session's configs. -/
def agentDisplay (s : SimState) (isA : Bool) : String :=
  if isA then s.agent_a_config.name else s.agent_b_config.name

/-- The chunk consumption of one agent turn of `run_with_streaming`. -/
def turnConsume (intrAt : Option Nat) (t : Nat) (s : SimState) (isA : Bool)
    (node : NodeRun) : ConsumeResult :=
  consumeStream intrAt (agentWire isA) (agentDisplay s isA) node.yields t ""

/-- Result of one agent turn of `run_with_streaming`. -/
structure TurnOutcome where
  state : SimState
  events : List Event
  clock : Nat
  err : Option String

/-- One agent turn of `ConflictSimulator.run_with_streaming` (the
`next_speaker == "agent_a"` / `"agent_b"` bodies, which differ only in the
config they read): emit `typing`, consume the stream with interrupt checks,
and — unless the generator raised and the loop was not broken first — clean
the response, append it to the transcript, bump `turns` and emit
`agent_message`.  A generator exception reached by the loop propagates,
leaving the state untouched. -/
def agentStreamTurn (intrAt : Option Nat) (t : Nat) (s : SimState) (isA : Bool)
    (node : NodeRun) : TurnOutcome :=
  if (turnConsume intrAt t s isA node).interruptedMid = false ∧ node.err.isSome then
    ⟨s, Event.typing (agentWire isA) (agentDisplay s isA) :: (turnConsume intrAt t s isA node).events,
      (turnConsume intrAt t s isA node).clock, node.err⟩
  else
    ⟨{ s with
        messages := s.messages ++
          [⟨PyMsgKind.ai,
            agentDisplay s isA ++ ": " ++
              clean_agent_response (turnConsume intrAt t s isA node).fullContent (agentDisplay s isA),
            some (agentTagOf isA)⟩],
        turns := s.turns + 1 },
      Event.typing (agentWire isA) (agentDisplay s isA) ::
        ((turnConsume intrAt t s isA node).events ++
          [Event.agentMessage (agentWire isA) (agentDisplay s isA)
            (clean_agent_response (turnConsume intrAt t s isA node).fullContent (agentDisplay s isA))]),
      (turnConsume intrAt t s isA node).clock, none⟩

/-- Result of a whole executor run. -/
structure RunOutcome where
  state : SimState
  events : List Event
  err : Option String
  finalSpeaker : String

/-- Modelled from the spec: `smart_route_next_speaker` is imported by
`core/graph.py` from `core/router.py` but its definition is not under `src/`;
per the spec it delegates the decision to a capability-driven classification
with the rule-based router as fallback (`suggestNext(state) -> role`).  The
run model therefore takes the whole routing function as an oracle parameter
`route : SimState → String`, so every theorem below holds for all possible
smart-router behaviours. -/
def smartRouteOracle (route : SimState → String) (s : SimState) : String :=
  route s

/-- The `while next_speaker not in ["human", "evaluator", "end"]` loop of
`ConflictSimulator.run_with_streaming`, fuel-indexed.  `gens` supplies the
language-model oracle of the `g`-th agent-node invocation, `t` is the
interrupt-flag clock.  The loop checks the interrupt flag and `should_stop`
at the top (breaking to the evaluator), runs an agent turn for
`agent_a`/`agent_b` (a generator exception aborts the run with the state as
is), and re-routes; any other non-terminal speaker value falls through to
re-routing, as in the source. -/
def runLoop (route : SimState → String) (gens : Nat → LLMTurn) (intrAt : Option Nat) :
    Nat → SimState → String → Nat → Nat → RunOutcome
  | 0, s, sp, _, _ => ⟨s, [], none, sp⟩
  | Nat.succ fuel, s, sp, t, g =>
    if sp = "human" ∨ sp = "evaluator" ∨ sp = "end" then ⟨s, [], none, sp⟩
    else if intrHit intrAt t then ⟨s, [], none, "evaluator"⟩
    else if s.should_stop then ⟨s, [], none, "evaluator"⟩
    else if sp = "agent_a" ∨ sp = "agent_b" then
      let node := if sp = "agent_a" then agent_a_node_streaming (gens g)
                  else agent_b_node_streaming (gens g)
      let tr := agentStreamTurn intrAt (t + 1) s (sp = "agent_a") node
      match tr.err with
      | some e => ⟨tr.state, tr.events, some e, sp⟩
      | none =>
        let nxt := smartRouteOracle route tr.state
        let rest := runLoop route gens intrAt fuel { tr.state with next_speaker := some nxt }
          nxt tr.clock (g + 1)
        ⟨rest.state, tr.events ++ rest.events, rest.err, rest.finalSpeaker⟩
    else
      let nxt := smartRouteOracle route s
      let rest := runLoop route gens intrAt fuel { s with next_speaker := some nxt }
        nxt (t + 1) (g + 1)
      ⟨rest.state, rest.events, rest.err, rest.finalSpeaker⟩

/-- `ConflictSimulator.run_with_streaming` on an existing session: run the
turn loop starting from the stored `next_speaker` (defaulting to `agent_a`),
then — unless the loop aborted with an exception — run the streamed
evaluator when the final speaker is the evaluator (appending the `COACH:`
message, without bumping `turns`), or emit `waiting_for_input` when it is
the human. -/
def run_with_streaming (route : SimState → String) (gens : Nat → LLMTurn)
    (evalGen : LLMTurn) (intrAt : Option Nat) (fuel : Nat) (s : SimState) : RunOutcome :=
  let sp0 := match s.next_speaker with | none => "agent_a" | some v => v
  let r := runLoop route gens intrAt fuel s sp0 0 0
  if r.err.isSome then r
  else if r.finalSpeaker = "evaluator" then
    let node := evaluator_node_streaming evalGen
    let c := consumeStream none "evaluator" "Coach" node.yields 0 ""
    match node.err with
    | some e =>
      ⟨r.state, r.events ++ (Event.typing "evaluator" "Coach" :: c.events), some e, "evaluator"⟩
    | none =>
      ⟨{ r.state with
          messages := r.state.messages ++
            [⟨PyMsgKind.ai, "COACH: " ++ pyStrip c.fullContent, some "evaluator"⟩] },
        r.events ++ (Event.typing "evaluator" "Coach" :: (c.events ++ [Event.evaluation c.fullContent])),
        none, "evaluator"⟩
  else if r.finalSpeaker = "human" then
    ⟨r.state, r.events ++ [Event.waitingForInput (determine_expected_role r.state)], none, "human"⟩
  else r

/-- `ConflictSimulator.start_session`: seed the transcript with the scenario
(or default) system message and build the initial state; the state is stored
in the session registry verbatim. -/
def start_session (sessionId : String) (mode : String) (agentACfg agentBCfg : AgentConfig)
    (scenario : Option String) (userRole : Option String) : SimState :=
  { messages :=
      [match scenario with
       | some sc =>
         ⟨PyMsgKind.human, "[SZENARIO: " ++ sc ++ "]\n\nBitte beginne das Gespräch.", some "system"⟩
       | none =>
         ⟨PyMsgKind.human,
          "Bitte beginne das Gespräch. Du bist in einem Konflikt mit der anderen Person.",
          some "system"⟩],
    session_id := sessionId,
    mode := mode,
    next_speaker := some "agent_a",
    turns := 0,
    agent_a_config := agentACfg,
    agent_b_config := agentBCfg,
    user_role := userRole,
    should_stop := false }

/-- `ConflictSimulator.add_human_message`: append the role-tagged
`HumanMessage` and set the agent that reacts next; an unknown role leaves
the state unchanged (the handler returns `True` regardless). -/
def add_human_message (s : SimState) (content role : String) : SimState :=
  if role = "mediator" then
    { s with
        messages := s.messages ++ [⟨PyMsgKind.human, "[MEDIATOR]: " ++ content, some "mediator"⟩],
        next_speaker := some "agent_a" }
  else if role = "agent_a" then
    { s with
        messages := s.messages ++
          [⟨PyMsgKind.human, s.agent_a_config.name ++ ": " ++ content, some "agent_a"⟩],
        next_speaker := some "agent_b" }
  else if role = "agent_b" then
    { s with
        messages := s.messages ++
          [⟨PyMsgKind.human, s.agent_b_config.name ++ ": " ++ content, some "agent_b"⟩],
        next_speaker := some "agent_a" }
  else s

/-- `ConflictSimulator.stop_session`: set `should_stop` on the session. -/
def stop_session (s : SimState) : SimState :=
  { s with should_stop := true }

/-- `ConflictSimulator.interrupt_session` on an existing session: set
`should_stop` (it also raises the registry's interrupt flag, which the run
model carries separately as `intrAt`). -/
def interrupt_session (s : SimState) : SimState :=
  { s with should_stop := true }

/-- The display name a suggested speaker is announced with. -/
def speakerDisplayName (s : SimState) (sp : String) : String :=
  if sp = "agent_a" then s.agent_a_config.name
  else if sp = "agent_b" then s.agent_b_config.name
  else sp

/-- Modelled from the spec: `run_single_turn` is invoked by every websocket
handler (`handle_start_session`, `handle_user_message`, `handle_continue`,
`handle_stop`, `handle_request_evaluation`) but its definition is not under
`src/`.  Per the spec's single-turn operating mode it routes once, executes
exactly one agent turn for `agent_a`/`agent_b` (same turn mechanics as
`run_with_streaming`) and then emits `waiting_for_decision` carrying the
suggested next speaker, its display name and both agent names; a stop or
evaluation request routes to the streamed evaluator; a `human` decision
emits `waiting_for_input`.  The suggestion uses the rule-based fallback on
the post-turn transcript, matching the spec's single-turn cadence
scenario.  `singleAgentTurn` is the agent branch of that model: one
streamed agent turn followed by the `waiting_for_decision` emission. -/
def singleAgentTurn (intrAt : Option Nat) (gen : LLMTurn) (s : SimState) (isA : Bool) :
    RunOutcome :=
  let node := if isA then agent_a_node_streaming gen else agent_b_node_streaming gen
  let tr := agentStreamTurn intrAt 0 s isA node
  match tr.err with
  | some e => ⟨tr.state, tr.events, some e, agentTagOf isA⟩
  | none =>
    let suggested := route_next_speaker { tr.state with next_speaker := none }
    let s2 := { tr.state with next_speaker := some suggested }
    ⟨s2,
      tr.events ++
        [Event.waitingForDecision suggested (speakerDisplayName s2 suggested)
          s.agent_a_config.name s.agent_b_config.name],
      none, agentTagOf isA⟩

def run_single_turn (intrAt : Option Nat) (gen evalGen : LLMTurn) (s : SimState) : RunOutcome :=
  if route_next_speaker s = "agent_a" then singleAgentTurn intrAt gen s true
  else if route_next_speaker s = "agent_b" then singleAgentTurn intrAt gen s false
  else if route_next_speaker s = "evaluator" then
    let node := evaluator_node_streaming evalGen
    let c := consumeStream none "evaluator" "Coach" node.yields 0 ""
    match node.err with
    | some e => ⟨s, Event.typing "evaluator" "Coach" :: c.events, some e, "evaluator"⟩
    | none =>
      ⟨{ s with
          messages := s.messages ++
            [⟨PyMsgKind.ai, "COACH: " ++ pyStrip c.fullContent, some "evaluator"⟩] },
        Event.typing "evaluator" "Coach" :: (c.events ++ [Event.evaluation c.fullContent]),
        none, "evaluator"⟩
  else
    ⟨s, [Event.waitingForInput (determine_expected_role s)], none, route_next_speaker s⟩

/-- `handle_continue` from `api/websocket.py`: forward the run's events and,
when the run raises, send an `error` event wrapping the underlying message
(`"Failed to continue: ..."`). -/
def handle_continue (intrAt : Option Nat) (gen evalGen : LLMTurn) (s : SimState) :
    SimState × List Event :=
  let r := run_single_turn intrAt gen evalGen s
  match r.err with
  | some e => (r.state, r.events ++ [Event.errorEvent ("Failed to continue: " ++ e)])
  | none => (r.state, r.events)

/-! ## Helper lemmas -/

lemma str_append_empty (s : String) : s ++ "" = s := by
  cases s with
  | mk l => show String.mk (l ++ []) = String.mk l; rw [List.append_nil]

lemma strStartsWith_empty_left (p : String) (hp : p.data ≠ []) :
    strStartsWith "" p = false := by
  unfold strStartsWith
  cases h : p.data with
  | nil => exact absurd h hp
  | cons a as => rfl

lemma pyLower_data (s : String) : (pyLower s).data = s.data.map Char.toLower := rfl

lemma clean_agent_response_empty (nm : String) : clean_agent_response "" nm = "" := by
  have hfind : (selfNameVariants nm).find?
      (fun p => strStartsWith (pyLower (pyStrip "")) (pyLower p)) = none := by
    rw [List.find?_eq_none]
    intro p hp
    have hdata : p.data ≠ [] := by
      simp only [selfNameVariants, List.mem_cons, List.not_mem_nil, or_false] at hp
      rcases hp with h | h | h | h | h <;> subst h <;>
        simp [show ∀ u v : String, (u ++ v).data = u.data ++ v.data from fun _ _ => rfl,
          pyLower_data, show (":" : String).data = [':'] from rfl,
          show ("*" : String).data = ['*'] from rfl]
    have hlow : (pyLower p).data ≠ [] := by
      rw [pyLower_data]
      simpa using hdata
    rw [show pyStrip "" = "" from rfl, show pyLower "" = "" from rfl]
    simp [strStartsWith_empty_left (pyLower p) hlow]
  unfold clean_agent_response
  rw [hfind]
  rfl

lemma consumeStream_noIntr (ag nm : String) (ys : List (String × Bool)) :
    ∀ (t : Nat) (acc : String), (consumeStream none ag nm ys t acc).interruptedMid = false := by
  induction ys with
  | nil => intro t acc; rfl
  | cons p rest ih =>
    intro t acc
    obtain ⟨c, fin⟩ := p
    cases fin with
    | true => simpa [consumeStream, intrHit] using ih (t + 1) c
    | false => simpa [consumeStream, intrHit] using ih (t + 1) acc

lemma consumeStream_no_agent_message (intrAt : Option Nat) (ag nm : String)
    (ys : List (String × Bool)) :
    ∀ (t : Nat) (acc : String),
      ∀ ev ∈ (consumeStream intrAt ag nm ys t acc).events, isAgentMessageEv ev = false := by
  induction ys with
  | nil => intro t acc ev hev; simp [consumeStream] at hev
  | cons p rest ih =>
    intro t acc ev hev
    obtain ⟨c, fin⟩ := p
    by_cases hi : intrHit intrAt t = true
    · simp [consumeStream, hi] at hev
    · rw [Bool.not_eq_true] at hi
      cases fin with
      | true =>
        simp only [consumeStream, hi, Bool.false_eq_true, if_false, if_true] at hev
        exact ih (t + 1) c ev hev
      | false =>
        simp only [consumeStream, hi, Bool.false_eq_true, if_false, List.mem_cons] at hev
        rcases hev with h | h
        · subst h; rfl
        · exact ih (t + 1) acc ev h

lemma consumeStream_broke_full (intrAt : Option Nat) (ag nm : String)
    (ys : List (String × Bool)) :
    ∀ (t : Nat) (acc : String),
      ys.dropLast.all (fun q => q.2 = false) = true →
      (consumeStream intrAt ag nm ys t acc).interruptedMid = true →
      (consumeStream intrAt ag nm ys t acc).fullContent = acc := by
  induction ys with
  | nil => intro t acc _ hbad; simp [consumeStream] at hbad
  | cons p rest ih =>
    intro t acc hall hbroke
    obtain ⟨c, fin⟩ := p
    by_cases hi : intrHit intrAt t = true
    · simp [consumeStream, hi]
    · rw [Bool.not_eq_true] at hi
      cases fin with
      | true =>
        cases rest with
        | nil =>
          simp only [consumeStream, hi, Bool.false_eq_true, if_false, if_true] at hbroke
        | cons r rs =>
          exfalso
          simp [List.dropLast] at hall
      | false =>
        simp only [consumeStream, hi, Bool.false_eq_true, if_false] at hbroke ⊢
        have hall' : rest.dropLast.all (fun q => q.2 = false) = true := by
          cases rest with
          | nil => rfl
          | cons r rs =>
            simp only [List.dropLast, List.all_cons, Bool.and_eq_true] at hall
            exact hall.2
        exact ih (t + 1) acc hall' hbroke

lemma agent_a_node_err (llm : LLMTurn) : (agent_a_node_streaming llm).err = llm.streamErr := by
  cases h : llm.streamErr <;> simp [agent_a_node_streaming, h]

lemma agent_b_node_err_none (llm : LLMTurn) (h : llm.streamErr = none) :
    (agent_b_node_streaming llm).err = none := by
  rcases hns : llm.nonStream with c | e <;>
    simp only [agent_b_node_streaming, h, hns] <;> split_ifs <;> rfl

lemma agent_b_node_err_some (llm : LLMTurn) (e : String) (h : llm.streamErr = some e) :
    (agent_b_node_streaming llm).err = some e := by
  simp [agent_b_node_streaming, h]

lemma map_false_concat_dropLast_all (cs : List String) (x : String × Bool) :
    ((cs.map (fun c => (c, false))) ++ [x]).dropLast.all (fun q => q.2 = false) = true := by
  rw [List.dropLast_concat, List.all_eq_true]
  intro q hq
  rcases List.mem_map.mp hq with ⟨c, _, rfl⟩
  rfl

lemma map_false_dropLast_all (cs : List String) :
    ((cs.map (fun c => (c, false)))).dropLast.all (fun q => q.2 = false) = true := by
  rw [List.all_eq_true]
  intro q hq
  rcases List.mem_map.mp (List.dropLast_subset _ hq) with ⟨c, _, rfl⟩
  rfl

lemma map_false_two_concat_dropLast_all (cs : List String) (c : String) (x : String × Bool) :
    ((cs.map (fun d => (d, false))) ++ [(c, false), x]).dropLast.all
      (fun q => q.2 = false) = true := by
  have h2 : (cs.map (fun d => (d, false))) ++ [(c, false), x] =
      ((cs.map (fun d => (d, false))) ++ [(c, false)]) ++ [x] := by
    rw [List.append_assoc]; rfl
  rw [h2, List.dropLast_concat, List.all_append, Bool.and_eq_true]
  refine ⟨?_, rfl⟩
  rw [List.all_eq_true]
  intro q hq
  rcases List.mem_map.mp hq with ⟨d, _, rfl⟩
  rfl

lemma agent_a_node_final_last (llm : LLMTurn) :
    (agent_a_node_streaming llm).yields.dropLast.all (fun q => q.2 = false) = true := by
  cases h : llm.streamErr with
  | none =>
    simp only [agent_a_node_streaming, h]
    exact map_false_concat_dropLast_all _ _
  | some e =>
    simp only [agent_a_node_streaming, h]
    exact map_false_dropLast_all _

lemma agent_b_node_final_last (llm : LLMTurn) :
    (agent_b_node_streaming llm).yields.dropLast.all (fun q => q.2 = false) = true := by
  cases h : llm.streamErr with
  | none =>
    simp only [agent_b_node_streaming, h]
    split_ifs with h1
    · split
      · split_ifs with h2
        · exact map_false_concat_dropLast_all _ _
        · exact map_false_two_concat_dropLast_all _ _ _
      · exact map_false_concat_dropLast_all _ _
    · exact map_false_concat_dropLast_all _ _
  | some e =>
    simp only [agent_b_node_streaming, h]
    exact map_false_dropLast_all _

lemma evaluator_node_final_last (llm : LLMTurn) :
    (evaluator_node_streaming llm).yields.dropLast.all (fun q => q.2 = false) = true := by
  cases h : llm.streamErr with
  | none =>
    simp only [evaluator_node_streaming, h]
    exact map_false_concat_dropLast_all _ _
  | some e =>
    simp only [evaluator_node_streaming, h]
    exact map_false_dropLast_all _

lemma agentStreamTurn_err (intrAt : Option Nat) (t : Nat) (s : SimState) (isA : Bool)
    (node : NodeRun) (e : String) (hne : node.err = some e)
    (hnb : (turnConsume intrAt t s isA node).interruptedMid = false) :
    agentStreamTurn intrAt t s isA node =
      ⟨s, Event.typing (agentWire isA) (agentDisplay s isA) ::
          (turnConsume intrAt t s isA node).events,
        (turnConsume intrAt t s isA node).clock, some e⟩ := by
  unfold agentStreamTurn
  rw [if_pos ⟨hnb, by rw [hne]; rfl⟩, hne]

lemma agentStreamTurn_ok (intrAt : Option Nat) (t : Nat) (s : SimState) (isA : Bool)
    (node : NodeRun) (hne : node.err = none) :
    agentStreamTurn intrAt t s isA node =
      ⟨{ s with
          messages := s.messages ++
            [⟨PyMsgKind.ai,
              agentDisplay s isA ++ ": " ++
                clean_agent_response (turnConsume intrAt t s isA node).fullContent
                  (agentDisplay s isA),
              some (agentTagOf isA)⟩],
          turns := s.turns + 1 },
        Event.typing (agentWire isA) (agentDisplay s isA) ::
          ((turnConsume intrAt t s isA node).events ++
            [Event.agentMessage (agentWire isA) (agentDisplay s isA)
              (clean_agent_response (turnConsume intrAt t s isA node).fullContent
                (agentDisplay s isA))]),
        (turnConsume intrAt t s isA node).clock, none⟩ := by
  unfold agentStreamTurn
  rw [if_neg]
  rintro ⟨-, hs⟩
  rw [hne] at hs
  exact absurd hs (by simp)

lemma agentStreamTurn_broke (intrAt : Option Nat) (t : Nat) (s : SimState) (isA : Bool)
    (node : NodeRun) (hbroke : (turnConsume intrAt t s isA node).interruptedMid = true) :
    agentStreamTurn intrAt t s isA node =
      ⟨{ s with
          messages := s.messages ++
            [⟨PyMsgKind.ai,
              agentDisplay s isA ++ ": " ++
                clean_agent_response (turnConsume intrAt t s isA node).fullContent
                  (agentDisplay s isA),
              some (agentTagOf isA)⟩],
          turns := s.turns + 1 },
        Event.typing (agentWire isA) (agentDisplay s isA) ::
          ((turnConsume intrAt t s isA node).events ++
            [Event.agentMessage (agentWire isA) (agentDisplay s isA)
              (clean_agent_response (turnConsume intrAt t s isA node).fullContent
                (agentDisplay s isA))]),
        (turnConsume intrAt t s isA node).clock, none⟩ := by
  unfold agentStreamTurn
  rw [if_neg]
  rintro ⟨hb, -⟩
  rw [hbroke] at hb
  exact absurd hb (by simp)

lemma agentStreamTurn_msgs (intrAt : Option Nat) (t : Nat) (s : SimState) (isA : Bool)
    (node : NodeRun) :
    (∃ u, (agentStreamTurn intrAt t s isA node).state.messages = s.messages ++ u)
    ∧ s.turns ≤ (agentStreamTurn intrAt t s isA node).state.turns := by
  unfold agentStreamTurn
  split
  · exact ⟨⟨[], (List.append_nil _).symm⟩, le_refl _⟩
  · exact ⟨⟨_, rfl⟩, by simp⟩

lemma runLoop_msgs (route : SimState → String) (gens : Nat → LLMTurn) (intrAt : Option Nat) :
    ∀ (fuel : Nat) (s : SimState) (sp : String) (t g : Nat),
      (∃ u, (runLoop route gens intrAt fuel s sp t g).state.messages = s.messages ++ u)
      ∧ s.turns ≤ (runLoop route gens intrAt fuel s sp t g).state.turns := by
  intro fuel
  induction fuel with
  | zero =>
    intro s sp t g
    exact ⟨⟨[], (List.append_nil _).symm⟩, le_refl _⟩
  | succ fuel ih =>
    intro s sp t g
    simp only [runLoop, smartRouteOracle]
    split
    · exact ⟨⟨[], (List.append_nil _).symm⟩, le_refl _⟩
    split
    · exact ⟨⟨[], (List.append_nil _).symm⟩, le_refl _⟩
    split
    · exact ⟨⟨[], (List.append_nil _).symm⟩, le_refl _⟩
    split
    · obtain ⟨⟨u1, hu1⟩, ht1⟩ := agentStreamTurn_msgs intrAt (t + 1) s (sp = "agent_a")
        (if sp = "agent_a" then agent_a_node_streaming (gens g) else agent_b_node_streaming (gens g))
      split
      · exact ⟨⟨u1, hu1⟩, ht1⟩
      · obtain ⟨⟨u2, hu2⟩, ht2⟩ := ih _ _ _ _
        refine ⟨⟨u1 ++ u2, ?_⟩, ?_⟩
        · rw [← List.append_assoc, ← hu1]
          exact hu2
        · exact le_trans ht1 ht2
    · obtain ⟨⟨u2, hu2⟩, ht2⟩ := ih _ _ _ _
      exact ⟨⟨u2, hu2⟩, ht2⟩

lemma run_with_streaming_msgs (route : SimState → String) (gens : Nat → LLMTurn)
    (evalGen : LLMTurn) (intrAt : Option Nat) (fuel : Nat) (s : SimState) :
    (∃ u, (run_with_streaming route gens evalGen intrAt fuel s).state.messages = s.messages ++ u)
    ∧ s.turns ≤ (run_with_streaming route gens evalGen intrAt fuel s).state.turns := by
  unfold run_with_streaming
  cases hns : s.next_speaker with
  | none =>
    dsimp only
    obtain ⟨⟨u0, hu0⟩, ht0⟩ := runLoop_msgs route gens intrAt fuel s "agent_a" 0 0
    split
    · exact ⟨⟨u0, hu0⟩, ht0⟩
    split
    · split
      · exact ⟨⟨u0, hu0⟩, ht0⟩
      · refine ⟨⟨u0 ++
          [⟨PyMsgKind.ai,
            "COACH: " ++ pyStrip (consumeStream none "evaluator" "Coach"
              (evaluator_node_streaming evalGen).yields 0 "").fullContent,
            some "evaluator"⟩], ?_⟩, ht0⟩
        rw [← List.append_assoc, ← hu0]
    · split
      · exact ⟨⟨u0, hu0⟩, ht0⟩
      · exact ⟨⟨u0, hu0⟩, ht0⟩
  | some v =>
    dsimp only
    obtain ⟨⟨u0, hu0⟩, ht0⟩ := runLoop_msgs route gens intrAt fuel s v 0 0
    split
    · exact ⟨⟨u0, hu0⟩, ht0⟩
    split
    · split
      · exact ⟨⟨u0, hu0⟩, ht0⟩
      · refine ⟨⟨u0 ++
          [⟨PyMsgKind.ai,
            "COACH: " ++ pyStrip (consumeStream none "evaluator" "Coach"
              (evaluator_node_streaming evalGen).yields 0 "").fullContent,
            some "evaluator"⟩], ?_⟩, ht0⟩
        rw [← List.append_assoc, ← hu0]
    · split
      · exact ⟨⟨u0, hu0⟩, ht0⟩
      · exact ⟨⟨u0, hu0⟩, ht0⟩

/-! ## Concrete fixtures -/

def cfgLisa : AgentConfig := ⟨"Lisa", "PromptA"⟩

def cfgThomas : AgentConfig := ⟨"Thomas", "PromptB"⟩

def sessionStart : SimState :=
  start_session "sess-1" "mediator" cfgLisa cfgThomas (some "Urlaubsstreit") none

def sFallbackA : SimState :=
  { sessionStart with
      next_speaker := none,
      messages := [⟨PyMsgKind.ai, "Lisa: Hi", some "agent_a"⟩],
      turns := 1 }

def sFallbackB0 : SimState :=
  { sessionStart with
      next_speaker := none,
      messages := [⟨PyMsgKind.ai, "Thomas: Hi", some "agent_b"⟩],
      turns := 4 }

def sFallbackB1 : SimState :=
  { sessionStart with
      next_speaker := none,
      messages := [⟨PyMsgKind.ai, "Thomas: Hi", some "agent_b"⟩],
      turns := 1 }

def sFallbackMed : SimState :=
  { sessionStart with
      next_speaker := none,
      messages := [⟨PyMsgKind.human, "[MEDIATOR]: Moment bitte", some "mediator"⟩],
      turns := 2 }

/-! ## Claim theorems -/

/-- C6: whenever `should_stop` is true, `route_next_speaker` returns
`evaluator`, regardless of `next_speaker`, mode, or transcript. -/
theorem C6_stop_forces_evaluator (s : SimState) (h : s.should_stop = true) :
    route_next_speaker s = "evaluator" := by
  unfold route_next_speaker
  rw [h]
  rfl

/-- C6 witness: stopping the freshly started session makes the next routing
decision `evaluator`. -/
theorem C6_witness : route_next_speaker (stop_session sessionStart) = "evaluator" :=
  C6_stop_forces_evaluator (stop_session sessionStart) rfl

/-- C10: with `should_stop` false and `next_speaker` unset, the rule-based
router only ever returns `agent_a`, `agent_b` or `human` — never `evaluator`
and never `end`. -/
theorem C10_rule_router_range (s : SimState) (h1 : s.should_stop = false)
    (h2 : isTruthyOpt s.next_speaker = false) :
    route_next_speaker s = "agent_a" ∨ route_next_speaker s = "agent_b"
    ∨ route_next_speaker s = "human" := by
  unfold route_next_speaker
  rw [h1, h2]
  simp only [Bool.false_eq_true, if_false]
  cases hm : s.messages.getLast? with
  | none => exact Or.inl (by simp)
  | some last =>
    by_cases hmode : s.mode = "mediator"
    · by_cases hA : last.name = some "agent_a"
      · exact Or.inr (Or.inl (by simp [hmode, hA]))
      · by_cases hB : last.name = some "agent_b"
        · by_cases ht : s.turns % 4 = 0
          · exact Or.inr (Or.inr (by simp [hmode, hA, hB, ht]))
          · exact Or.inl (by simp [hmode, hA, hB, ht])
        · exact Or.inl (by simp [hmode, hA, hB])
    · by_cases hpart : s.mode = "participant"
      · by_cases hua : s.user_role = some "agent_a"
        · by_cases hcond : last.name = some "agent_b" ∨ last.kind = PyMsgKind.human
          · exact Or.inr (Or.inl (by simp [hmode, hpart, hua, hcond]))
          · exact Or.inr (Or.inr (by simp [hmode, hpart, hua, hcond]))
        · by_cases hub : s.user_role = some "agent_b"
          · by_cases hcond : last.name = some "agent_a" ∨ last.kind = PyMsgKind.human
            · exact Or.inl (by simp [hmode, hpart, hua, hub, hcond])
            · exact Or.inr (Or.inr (by simp [hmode, hpart, hua, hub, hcond]))
          · exact Or.inl (by simp [hmode, hpart, hua, hub])
      · exact Or.inl (by simp [hmode, hpart])

/-- C10 witness: on a fresh mediator session with `next_speaker` cleared, the
router picks one of the three conversational roles. -/
theorem C10_witness :
    route_next_speaker { sessionStart with next_speaker := none } = "agent_a"
    ∨ route_next_speaker { sessionStart with next_speaker := none } = "agent_b"
    ∨ route_next_speaker { sessionStart with next_speaker := none } = "human" :=
  C10_rule_router_range { sessionStart with next_speaker := none } rfl rfl

/-- C5: the mediator-mode fallback of `route_next_speaker` (reached when
`should_stop` is false and `next_speaker` is unset) returns `agent_b` after a
message tagged `agent_a`; `human` after a message tagged `agent_b` when
`turns % 4 == 0`, else `agent_a`; and `agent_a` after a human or system entry
(one not tagged with either agent). -/
theorem C5_mediator_fallback (s1 s2 s3 s4 : SimState) (m1 m2 m3 m4 : PyMessage)
    (h1a : s1.should_stop = false) (h1b : isTruthyOpt s1.next_speaker = false)
    (h1c : s1.mode = "mediator") (h1d : s1.messages.getLast? = some m1)
    (h1e : m1.name = some "agent_a")
    (h2a : s2.should_stop = false) (h2b : isTruthyOpt s2.next_speaker = false)
    (h2c : s2.mode = "mediator") (h2d : s2.messages.getLast? = some m2)
    (h2e : m2.name = some "agent_b") (h2f : s2.turns % 4 = 0)
    (h3a : s3.should_stop = false) (h3b : isTruthyOpt s3.next_speaker = false)
    (h3c : s3.mode = "mediator") (h3d : s3.messages.getLast? = some m3)
    (h3e : m3.name = some "agent_b") (h3f : ¬ s3.turns % 4 = 0)
    (h4a : s4.should_stop = false) (h4b : isTruthyOpt s4.next_speaker = false)
    (h4c : s4.mode = "mediator") (h4d : s4.messages.getLast? = some m4)
    (h4e : m4.kind = PyMsgKind.human ∨ m4.name = some "system")
    (h4f : m4.name ≠ some "agent_a") (h4g : m4.name ≠ some "agent_b") :
    route_next_speaker s1 = "agent_b" ∧ route_next_speaker s2 = "human"
    ∧ route_next_speaker s3 = "agent_a" ∧ route_next_speaker s4 = "agent_a" := by
  refine ⟨?_, ?_, ?_, ?_⟩
  · unfold route_next_speaker
    rw [h1a, h1b, h1d]
    simp [h1c, h1e]
  · unfold route_next_speaker
    rw [h2a, h2b, h2d]
    simp [h2c, h2e, h2f]
  · unfold route_next_speaker
    rw [h3a, h3b, h3d]
    simp [h3c, h3e, h3f]
  · unfold route_next_speaker
    rw [h4a, h4b, h4d]
    rcases h4e with hk | hn
    · simp [h4c, h4f, h4g, hk]
    · simp [h4c, hn]

/-- C5 witness: the four mediator-fallback cases evaluated on concrete
states. -/
theorem C5_witness :
    route_next_speaker sFallbackA = "agent_b" ∧ route_next_speaker sFallbackB0 = "human"
    ∧ route_next_speaker sFallbackB1 = "agent_a" ∧ route_next_speaker sFallbackMed = "agent_a" :=
  C5_mediator_fallback sFallbackA sFallbackB0 sFallbackB1 sFallbackMed
    ⟨PyMsgKind.ai, "Lisa: Hi", some "agent_a"⟩
    ⟨PyMsgKind.ai, "Thomas: Hi", some "agent_b"⟩
    ⟨PyMsgKind.ai, "Thomas: Hi", some "agent_b"⟩
    ⟨PyMsgKind.human, "[MEDIATOR]: Moment bitte", some "mediator"⟩
    rfl rfl rfl (by decide) rfl
    rfl rfl rfl (by decide) rfl (by decide)
    rfl rfl rfl (by decide) rfl (by decide)
    rfl rfl rfl (by decide) (Or.inl rfl) (by decide) (by decide)

/-- C7 counterexample: `start_session` with mode `participant` and no
`user_role` stores a participant session whose `user_role` is unset — the
claimed invariant is not enforced anywhere (the request schema marks
`user_role` optional and `start_session` stores it verbatim). -/
theorem C7_counterexample :
    (start_session "sess-p" "participant" cfgLisa cfgThomas none none).mode = "participant"
    ∧ (start_session "sess-p" "participant" cfgLisa cfgThomas none none).user_role = none :=
  ⟨rfl, rfl⟩

/-- C7 amended: `start_session` stores the supplied `user_role` exactly as
given (so a participant session has `user_role` set only when the request
supplied one); the session always starts with `next_speaker = agent_a` and
`should_stop = false`. -/
theorem C7_user_role_stored_verbatim (sid mode : String) (a b : AgentConfig)
    (sc ur : Option String) :
    (start_session sid mode a b sc ur).user_role = ur
    ∧ (start_session sid mode a b sc ur).mode = mode
    ∧ (start_session sid mode a b sc ur).next_speaker = some "agent_a"
    ∧ (start_session sid mode a b sc ur).should_stop = false :=
  ⟨rfl, rfl, rfl, rfl⟩

/-- C9 counterexample: an input that begins with no self-name variant is not
returned unchanged — `_clean_agent_response` always strips surrounding
whitespace first, so `"Hallo "` comes back as `"Hallo"`. -/
theorem C9_counterexample :
    (selfNameVariants "Lisa").all
      (fun p => !(strStartsWith (pyLower "Hallo ") (pyLower p))) = true
    ∧ (selfNameVariants "Lisa").all
      (fun p => !(strStartsWith (pyLower (pyStrip "Hallo ")) (pyLower p))) = true
    ∧ clean_agent_response "Hallo " "Lisa" ≠ "Hallo " := by
  refine ⟨by decide, by decide, ?_⟩
  decide

/-- C9 amended: cleaning `"Lisa: Ich bin wütend."` for persona `"Lisa"`
yields `"Ich bin wütend."`; and any input whose stripped form begins with no
self-name variant is returned with only its surrounding whitespace stripped
(so inputs without surrounding whitespace are returned unchanged). -/
theorem C9_name_stripping (content agentName : String)
    (h : (selfNameVariants agentName).all
      (fun p => !(strStartsWith (pyLower (pyStrip content)) (pyLower p))) = true) :
    clean_agent_response "Lisa: Ich bin wütend." "Lisa" = "Ich bin wütend."
    ∧ clean_agent_response content agentName = pyStrip content := by
  refine ⟨by decide, ?_⟩
  unfold clean_agent_response
  have hfind : (selfNameVariants agentName).find?
      (fun p => strStartsWith (pyLower (pyStrip content)) (pyLower p)) = none := by
    rw [List.find?_eq_none]
    intro p hp
    have := List.all_eq_true.mp h p hp
    simpa using this
  rw [hfind]

/-- C9 witness: an unprefixed, already-stripped text is returned unchanged. -/
theorem C9_witness :
    clean_agent_response "Lisa: Ich bin wütend." "Lisa" = "Ich bin wütend."
    ∧ clean_agent_response "Ich sehe das anders." "Lisa" = pyStrip "Ich sehe das anders." :=
  C9_name_stripping "Ich sehe das anders." "Lisa" (by decide)

/-- C8: every state-mutating session operation — a whole
`run_with_streaming` run (for every router behaviour, every generation
oracle, every interrupt timing and any fuel, hence whether it succeeds, is
interrupted, or aborts on an exception), `add_human_message`, `stop_session`
and `interrupt_session` — leaves the prior transcript as an unchanged prefix
and never decreases the `turns` counter. -/
theorem C8_transcript_append_only (route : SimState → String) (gens : Nat → LLMTurn)
    (evalGen : LLMTurn) (intrAt : Option Nat) (fuel : Nat) (s s2 s3 s4 : SimState)
    (c role : String) :
    (∃ u, (run_with_streaming route gens evalGen intrAt fuel s).state.messages
        = s.messages ++ u)
    ∧ s.turns ≤ (run_with_streaming route gens evalGen intrAt fuel s).state.turns
    ∧ (∃ u, (add_human_message s2 c role).messages = s2.messages ++ u)
    ∧ s2.turns ≤ (add_human_message s2 c role).turns
    ∧ (stop_session s3).messages = s3.messages
    ∧ s3.turns ≤ (stop_session s3).turns
    ∧ (interrupt_session s4).messages = s4.messages
    ∧ s4.turns ≤ (interrupt_session s4).turns := by
  obtain ⟨hrun1, hrun2⟩ := run_with_streaming_msgs route gens evalGen intrAt fuel s
  refine ⟨hrun1, hrun2, ?_, ?_, rfl, le_refl _, rfl, le_refl _⟩
  · unfold add_human_message
    split_ifs
    · exact ⟨_, rfl⟩
    · exact ⟨_, rfl⟩
    · exact ⟨_, rfl⟩
    · exact ⟨[], (List.append_nil _).symm⟩
  · unfold add_human_message
    split_ifs <;> exact le_refl _

/-- C3 counterexample: on a completely empty streamed result, the agent A
node performs no non-streaming retry at all (the automatic retry exists only
in the agent B node), contradicting the claim that both agent turns retry
exactly once. -/
theorem C3_counterexample :
    (agent_a_node_streaming ⟨[], none, Except.ok "Antwort"⟩).nonStreamCalls = 0
    ∧ ¬ (agent_a_node_streaming ⟨[], none, Except.ok "Antwort"⟩).nonStreamCalls = 1 := by
  exact ⟨rfl, by decide⟩

lemma agent_b_retry_count (llm : LLMTurn)
    (hstream : llm.stream.filter (fun c => !(c == "")) = [])
    (herr : llm.streamErr = none) :
    (agent_b_node_streaming llm).nonStreamCalls = 1 := by
  simp only [agent_b_node_streaming, hstream, herr]
  rw [if_pos (show String.join [] = "" from rfl)]
  rcases hns : llm.nonStream with c | e
  case ok => dsimp only; split_ifs <;> rfl
  case error => rfl

/-- C3 amended: when the streamed result of an agent B turn is completely
empty (only empty chunks) and the stream does not raise, the agent B node
performs exactly one non-streaming retry, whatever that retry returns; when
the retry is also empty, or raises (the exception is caught), the node ends
with a final empty yield.  The agent A node performs no retry and ends with
a final empty yield immediately.  In both cases the executor turn surfaces
the attempt as an `agent_message` event with empty text instead of failing
the run. -/
theorem C3_empty_generation_retry (llm llm2 : LLMTurn) (s : SimState) (t : Nat) (isA : Bool)
    (node : NodeRun)
    (hstream : llm.stream.filter (fun c => !(c == "")) = [])
    (herr : llm.streamErr = none)
    (hretry : llm.nonStream = Except.ok "" ∨ ∃ e, llm.nonStream = Except.error e)
    (hstream2 : llm2.stream.filter (fun c => !(c == "")) = [])
    (herr2 : llm2.streamErr = none)
    (hny : node.yields = [("", true)]) (hne : node.err = none) :
    (agent_b_node_streaming llm2).nonStreamCalls = 1
    ∧ (agent_b_node_streaming llm).nonStreamCalls = 1
    ∧ (agent_b_node_streaming llm).yields = [("", true)]
    ∧ (agent_b_node_streaming llm).err = none
    ∧ (agent_a_node_streaming llm).nonStreamCalls = 0
    ∧ (agent_a_node_streaming llm).yields = [("", true)]
    ∧ (agent_a_node_streaming llm).err = none
    ∧ (agentStreamTurn none t s isA node).events.getLast? =
        some (Event.agentMessage (agentWire isA) (agentDisplay s isA) "")
    ∧ (agentStreamTurn none t s isA node).err = none
    ∧ (agentStreamTurn none t s isA node).state.turns = s.turns + 1 := by
  have hb : (agent_b_node_streaming llm) =
      ⟨[("", true)], none, 1⟩ := by
    rcases hretry with hok | ⟨e, he⟩
    · simp only [agent_b_node_streaming, hstream, herr, hok]
      rfl
    · simp only [agent_b_node_streaming, hstream, herr, he]
      rfl
  have ha : (agent_a_node_streaming llm) = ⟨[("", true)], none, 0⟩ := by
    simp only [agent_a_node_streaming, hstream, herr]
    rfl
  have hconsume : turnConsume none t s isA node = ⟨"", [], t + 1, false⟩ := by
    unfold turnConsume
    rw [hny]
    simp [consumeStream, intrHit]
  have hturn := agentStreamTurn_ok none t s isA node hne
  rw [hconsume] at hturn
  refine ⟨agent_b_retry_count llm2 hstream2 herr2, by rw [hb], by rw [hb], by rw [hb],
    by rw [ha], by rw [ha], by rw [ha], ?_, ?_, ?_⟩
  · rw [hturn]
    simp [clean_agent_response_empty]
  · rw [hturn]
  · rw [hturn]

/-- C3 witness: a stream of one empty chunk whose retry raises (`llm`), a
stream of one empty chunk whose retry returns content (`llm2`), and the
resulting empty-final turn for the default persona. -/
theorem C3_witness :
    (agent_b_node_streaming ⟨[""], none, Except.ok "Antwort"⟩).nonStreamCalls = 1
    ∧ (agent_b_node_streaming ⟨[""], none, Except.error "kaputt"⟩).nonStreamCalls = 1
    ∧ (agent_b_node_streaming ⟨[""], none, Except.error "kaputt"⟩).yields = [("", true)]
    ∧ (agent_b_node_streaming ⟨[""], none, Except.error "kaputt"⟩).err = none
    ∧ (agent_a_node_streaming ⟨[""], none, Except.error "kaputt"⟩).nonStreamCalls = 0
    ∧ (agent_a_node_streaming ⟨[""], none, Except.error "kaputt"⟩).yields = [("", true)]
    ∧ (agent_a_node_streaming ⟨[""], none, Except.error "kaputt"⟩).err = none
    ∧ (agentStreamTurn none 0 sessionStart true ⟨[("", true)], none, 0⟩).events.getLast? =
        some (Event.agentMessage (agentWire true) (agentDisplay sessionStart true) "")
    ∧ (agentStreamTurn none 0 sessionStart true ⟨[("", true)], none, 0⟩).err = none
    ∧ (agentStreamTurn none 0 sessionStart true ⟨[("", true)], none, 0⟩).state.turns =
        sessionStart.turns + 1 :=
  C3_empty_generation_retry ⟨[""], none, Except.error "kaputt"⟩
    ⟨[""], none, Except.ok "Antwort"⟩ sessionStart 0 true
    ⟨[("", true)], none, 0⟩ (by decide) rfl (Or.inr ⟨"kaputt", rfl⟩)
    (by decide) rfl rfl rfl

/-- C1 amended: when the interrupt flag becomes true while chunks of an agent
turn are still being streamed (the consumption loop breaks before the final
yield — and both agent nodes only mark their last yield as final), the
partial streamed text is discarded wholesale, but the attempt is not
dropped: the executor appends a message with empty cleaned content (name
prefix only), increments `turns` by one, and still emits an `agent_message`
event whose content is empty. -/
theorem C1_interrupt_appends_empty (intrAt : Option Nat) (t : Nat) (s : SimState)
    (isA : Bool) (node : NodeRun) (llmA llmB : LLMTurn)
    (hfin : node.yields.dropLast.all (fun q => q.2 = false) = true)
    (hbroke : (turnConsume intrAt t s isA node).interruptedMid = true) :
    (agentStreamTurn intrAt t s isA node).state.messages =
        s.messages ++ [⟨PyMsgKind.ai, agentDisplay s isA ++ ": ", some (agentTagOf isA)⟩]
    ∧ (agentStreamTurn intrAt t s isA node).state.turns = s.turns + 1
    ∧ (agentStreamTurn intrAt t s isA node).events.getLast? =
        some (Event.agentMessage (agentWire isA) (agentDisplay s isA) "")
    ∧ (agentStreamTurn intrAt t s isA node).err = none
    ∧ (agent_a_node_streaming llmA).yields.dropLast.all (fun q => q.2 = false) = true
    ∧ (agent_b_node_streaming llmB).yields.dropLast.all (fun q => q.2 = false) = true := by
  have hfull : (turnConsume intrAt t s isA node).fullContent = "" := by
    unfold turnConsume at hbroke ⊢
    exact consumeStream_broke_full intrAt _ _ node.yields t "" hfin hbroke
  have hturn := agentStreamTurn_broke intrAt t s isA node hbroke
  rw [hfull, clean_agent_response_empty, str_append_empty] at hturn
  have hev : (agentStreamTurn intrAt t s isA node).events =
      Event.typing (agentWire isA) (agentDisplay s isA) ::
        ((turnConsume intrAt t s isA node).events ++
          [Event.agentMessage (agentWire isA) (agentDisplay s isA) ""]) := by
    rw [hturn]
  refine ⟨?_, ?_, ?_, ?_, agent_a_node_final_last llmA, agent_b_node_final_last llmB⟩
  · rw [hturn]
  · rw [hturn]
  · rw [hev, ← List.cons_append, List.getLast?_concat]
  · rw [hturn]

/-- C1 witness: interrupting after the first chunk of a two-chunk stream. -/
theorem C1_witness :
    (agentStreamTurn (some 2) 1 sessionStart true
        (agent_a_node_streaming ⟨["Hal", "lo"], none, Except.ok "x"⟩)).state.messages =
      sessionStart.messages ++
        [⟨PyMsgKind.ai, agentDisplay sessionStart true ++ ": ", some (agentTagOf true)⟩]
    ∧ (agentStreamTurn (some 2) 1 sessionStart true
        (agent_a_node_streaming ⟨["Hal", "lo"], none, Except.ok "x"⟩)).state.turns =
      sessionStart.turns + 1
    ∧ (agentStreamTurn (some 2) 1 sessionStart true
        (agent_a_node_streaming ⟨["Hal", "lo"], none, Except.ok "x"⟩)).events.getLast? =
      some (Event.agentMessage (agentWire true) (agentDisplay sessionStart true) "")
    ∧ (agentStreamTurn (some 2) 1 sessionStart true
        (agent_a_node_streaming ⟨["Hal", "lo"], none, Except.ok "x"⟩)).err = none
    ∧ (agent_a_node_streaming ⟨[], none, Except.ok ""⟩).yields.dropLast.all
        (fun q => q.2 = false) = true
    ∧ (agent_b_node_streaming ⟨[], none, Except.ok ""⟩).yields.dropLast.all
        (fun q => q.2 = false) = true :=
  C1_interrupt_appends_empty (some 2) 1 sessionStart true
    (agent_a_node_streaming ⟨["Hal", "lo"], none, Except.ok "x"⟩)
    ⟨[], none, Except.ok ""⟩ ⟨[], none, Except.ok ""⟩ (by decide) (by decide)

/-- C1 counterexample: a whole `run_with_streaming` run in which the
interrupt flag becomes true after the first streamed chunk.  The chunk
stream is abandoned mid-turn (chunk `"Hal"` was emitted, `"lo"` never is),
yet an `agent_message` event for the attempt IS emitted (with empty content)
and the transcript grows (by the empty agent message, then the evaluator's
`COACH` message) — the claim's `no agent_message, length unchanged` fails. -/
theorem C1_counterexample :
    (Event.streamingChunk "a" "Lisa" "Hal" ∈
      (run_with_streaming (fun _ => "agent_a") (fun _ => ⟨["Hal", "lo"], none, Except.ok "x"⟩)
        ⟨["Gut."], none, Except.ok "x"⟩ (some 2) 5 sessionStart).events)
    ∧ (Event.streamingChunk "a" "Lisa" "lo" ∉
      (run_with_streaming (fun _ => "agent_a") (fun _ => ⟨["Hal", "lo"], none, Except.ok "x"⟩)
        ⟨["Gut."], none, Except.ok "x"⟩ (some 2) 5 sessionStart).events)
    ∧ (Event.agentMessage "a" "Lisa" "" ∈
      (run_with_streaming (fun _ => "agent_a") (fun _ => ⟨["Hal", "lo"], none, Except.ok "x"⟩)
        ⟨["Gut."], none, Except.ok "x"⟩ (some 2) 5 sessionStart).events)
    ∧ (run_with_streaming (fun _ => "agent_a") (fun _ => ⟨["Hal", "lo"], none, Except.ok "x"⟩)
        ⟨["Gut."], none, Except.ok "x"⟩ (some 2) 5 sessionStart).state.messages.length
      = sessionStart.messages.length + 2 := by
  decide

lemma turn_err_no_agent_message (intrAt : Option Nat) (t : Nat) (s : SimState) (isA : Bool)
    (node : NodeRun) (e : String) (hne : node.err = some e)
    (hnb : (turnConsume intrAt t s isA node).interruptedMid = false) :
    ∀ ev ∈ (agentStreamTurn intrAt t s isA node).events, isAgentMessageEv ev = false := by
  rw [agentStreamTurn_err intrAt t s isA node e hne hnb]
  intro ev hev
  rcases List.mem_cons.mp hev with h | h
  · subst h; rfl
  · exact consumeStream_no_agent_message intrAt _ _ node.yields t "" ev h

lemma runLoop_first_turn_err (route : SimState → String) (gens : Nat → LLMTurn)
    (k : Nat) (s : SimState) (e : String)
    (hstop : s.should_stop = false) (herr : (gens 0).streamErr = some e) :
    runLoop route gens none (k + 1) s "agent_a" 0 0 =
      ⟨s, (agentStreamTurn none 1 s true (agent_a_node_streaming (gens 0))).events,
        some e, "agent_a"⟩ := by
  have hnode : (agent_a_node_streaming (gens 0)).err = some e := by
    rw [agent_a_node_err, herr]
  have hnb : (turnConsume none 1 s true (agent_a_node_streaming (gens 0))).interruptedMid
      = false := consumeStream_noIntr _ _ _ 1 ""
  have hturn := agentStreamTurn_err none 1 s true (agent_a_node_streaming (gens 0)) e hnode hnb
  simp only [runLoop, hstop]
  simp only [intrHit, Bool.false_eq_true, if_false]
  simp
  rw [hturn]

lemma run_with_streaming_first_turn_err (route : SimState → String) (gens : Nat → LLMTurn)
    (evalGen : LLMTurn) (k : Nat) (s : SimState) (e : String)
    (hns : s.next_speaker = some "agent_a") (hstop : s.should_stop = false)
    (herr : (gens 0).streamErr = some e) :
    (run_with_streaming route gens evalGen none (k + 1) s).state = s
    ∧ (run_with_streaming route gens evalGen none (k + 1) s).err = some e
    ∧ ∀ ev ∈ (run_with_streaming route gens evalGen none (k + 1) s).events,
        isAgentMessageEv ev = false := by
  have hnode : (agent_a_node_streaming (gens 0)).err = some e := by
    rw [agent_a_node_err, herr]
  have hnb : (turnConsume none 1 s true (agent_a_node_streaming (gens 0))).interruptedMid
      = false := consumeStream_noIntr _ _ _ 1 ""
  have hnoam := turn_err_no_agent_message none 1 s true (agent_a_node_streaming (gens 0))
    e hnode hnb
  have hloop := runLoop_first_turn_err route gens k s e hstop herr
  have hrun : run_with_streaming route gens evalGen none (k + 1) s =
      ⟨s, (agentStreamTurn none 1 s true (agent_a_node_streaming (gens 0))).events,
        some e, "agent_a"⟩ := by
    unfold run_with_streaming
    rw [hns]
    dsimp only
    rw [hloop]
    rfl
  refine ⟨by rw [hrun], by rw [hrun], ?_⟩
  rw [hrun]
  intro ev hev
  exact hnoam ev hev

lemma singleAgentTurn_err (gen : LLMTurn) (s : SimState) (isA : Bool) (e : String)
    (hnode : (if isA then agent_a_node_streaming gen else agent_b_node_streaming gen).err
      = some e) :
    singleAgentTurn none gen s isA =
      ⟨s, (agentStreamTurn none 0 s isA
            (if isA then agent_a_node_streaming gen else agent_b_node_streaming gen)).events,
        some e, agentTagOf isA⟩ := by
  unfold singleAgentTurn
  dsimp only
  rw [agentStreamTurn_err none 0 s isA _ e hnode (consumeStream_noIntr _ _ _ 0 "")]

lemma run_single_turn_err (gen evalGen : LLMTurn) (s : SimState) (e : String)
    (herr : gen.streamErr = some e)
    (hroute : route_next_speaker s = "agent_a" ∨ route_next_speaker s = "agent_b") :
    (run_single_turn none gen evalGen s).state = s
    ∧ (run_single_turn none gen evalGen s).err = some e
    ∧ ∀ ev ∈ (run_single_turn none gen evalGen s).events, isAgentMessageEv ev = false := by
  rcases hroute with h | h
  · have hnode : (if true then agent_a_node_streaming gen
        else agent_b_node_streaming gen).err = some e := by
      simp [agent_a_node_err, herr]
    have hrun : run_single_turn none gen evalGen s =
        ⟨s, (agentStreamTurn none 0 s true
              (if true then agent_a_node_streaming gen else agent_b_node_streaming gen)).events,
          some e, agentTagOf true⟩ := by
      unfold run_single_turn
      rw [h, if_pos rfl]
      exact singleAgentTurn_err gen s true e hnode
    refine ⟨by rw [hrun], by rw [hrun], ?_⟩
    rw [hrun]
    exact turn_err_no_agent_message none 0 s true _ e hnode (consumeStream_noIntr _ _ _ 0 "")
  · have hnode : (if false then agent_a_node_streaming gen
        else agent_b_node_streaming gen).err = some e := by
      simp [agent_b_node_err_some gen e herr]
    have hrun : run_single_turn none gen evalGen s =
        ⟨s, (agentStreamTurn none 0 s false
              (if false then agent_a_node_streaming gen else agent_b_node_streaming gen)).events,
          some e, agentTagOf false⟩ := by
      unfold run_single_turn
      rw [h, if_neg (by decide), if_pos rfl]
      exact singleAgentTurn_err gen s false e hnode
    refine ⟨by rw [hrun], by rw [hrun], ?_⟩
    rw [hrun]
    exact turn_err_no_agent_message none 0 s false _ e hnode (consumeStream_noIntr _ _ _ 0 "")


/-- C4: a generation exception mid-turn aborts without appending: the failing
turn leaves the whole session state (hence `messages`, `turns`,
`next_speaker`, `should_stop`) untouched and emits no `agent_message`; a
whole `run_with_streaming` run whose first turn raises ends with the state
exactly as before and the exception propagated; `handle_continue` on a
failing turn leaves the state as it was, so the next routing decision is
unchanged, and delivers an `error` event carrying the underlying message. -/
theorem C4_generation_failure_aborts
    (s1 : SimState) (isA : Bool) (node : NodeRun) (e1 : String) (t1 : Nat)
    (s2 : SimState) (route : SimState → String) (gens : Nat → LLMTurn) (evalGen2 : LLMTurn)
    (k : Nat) (e2 : String)
    (s3 : SimState) (gen3 evalGen3 : LLMTurn) (e3 : String)
    (h1 : node.err = some e1)
    (hns2 : s2.next_speaker = some "agent_a") (hstop2 : s2.should_stop = false)
    (herr2 : (gens 0).streamErr = some e2)
    (herr3 : gen3.streamErr = some e3)
    (hroute3 : route_next_speaker s3 = "agent_a" ∨ route_next_speaker s3 = "agent_b") :
    (agentStreamTurn none t1 s1 isA node).state = s1
    ∧ (agentStreamTurn none t1 s1 isA node).err = some e1
    ∧ (∀ ev ∈ (agentStreamTurn none t1 s1 isA node).events, isAgentMessageEv ev = false)
    ∧ route_next_speaker (agentStreamTurn none t1 s1 isA node).state = route_next_speaker s1
    ∧ (run_with_streaming route gens evalGen2 none (k + 1) s2).state = s2
    ∧ (run_with_streaming route gens evalGen2 none (k + 1) s2).err = some e2
    ∧ (∀ ev ∈ (run_with_streaming route gens evalGen2 none (k + 1) s2).events,
        isAgentMessageEv ev = false)
    ∧ (handle_continue none gen3 evalGen3 s3).1 = s3
    ∧ (handle_continue none gen3 evalGen3 s3).2.getLast? =
        some (Event.errorEvent ("Failed to continue: " ++ e3))
    ∧ route_next_speaker (handle_continue none gen3 evalGen3 s3).1 = route_next_speaker s3 := by
  have hnb1 : (turnConsume none t1 s1 isA node).interruptedMid = false :=
    consumeStream_noIntr _ _ _ t1 ""
  have hturn1 := agentStreamTurn_err none t1 s1 isA node e1 h1 hnb1
  have hstate1 : (agentStreamTurn none t1 s1 isA node).state = s1 := by rw [hturn1]
  obtain ⟨hB1, hB2, hB3⟩ :=
    run_with_streaming_first_turn_err route gens evalGen2 k s2 e2 hns2 hstop2 herr2
  obtain ⟨hC1, hC2, hC3⟩ := run_single_turn_err gen3 evalGen3 s3 e3 herr3 hroute3
  have hhc : handle_continue none gen3 evalGen3 s3 =
      ((run_single_turn none gen3 evalGen3 s3).state,
        (run_single_turn none gen3 evalGen3 s3).events ++
          [Event.errorEvent ("Failed to continue: " ++ e3)]) := by
    unfold handle_continue
    dsimp only
    rw [hC2]
  refine ⟨hstate1, by rw [hturn1], turn_err_no_agent_message none t1 s1 isA node e1 h1 hnb1,
    by rw [hstate1], hB1, hB2, hB3, ?_, ?_, ?_⟩
  · rw [hhc]
    exact hC1
  · rw [hhc]
    exact List.getLast?_concat _
  · rw [hhc]
    rw [hC1]

/-- C4 witness: a failing first turn on a fresh session with a concrete
exception message. -/
theorem C4_witness :
    (agentStreamTurn none 1 sessionStart true ⟨[("Hal", false)], some "boom", 0⟩).state
        = sessionStart
    ∧ (agentStreamTurn none 1 sessionStart true ⟨[("Hal", false)], some "boom", 0⟩).err
        = some "boom"
    ∧ (∀ ev ∈ (agentStreamTurn none 1 sessionStart true
        ⟨[("Hal", false)], some "boom", 0⟩).events, isAgentMessageEv ev = false)
    ∧ route_next_speaker (agentStreamTurn none 1 sessionStart true
        ⟨[("Hal", false)], some "boom", 0⟩).state = route_next_speaker sessionStart
    ∧ (run_with_streaming (fun _ => "agent_a") (fun _ => ⟨["Hal"], some "boom", Except.ok ""⟩)
        ⟨["E"], none, Except.ok ""⟩ none (4 + 1) sessionStart).state = sessionStart
    ∧ (run_with_streaming (fun _ => "agent_a") (fun _ => ⟨["Hal"], some "boom", Except.ok ""⟩)
        ⟨["E"], none, Except.ok ""⟩ none (4 + 1) sessionStart).err = some "boom"
    ∧ (∀ ev ∈ (run_with_streaming (fun _ => "agent_a")
        (fun _ => ⟨["Hal"], some "boom", Except.ok ""⟩)
        ⟨["E"], none, Except.ok ""⟩ none (4 + 1) sessionStart).events,
        isAgentMessageEv ev = false)
    ∧ (handle_continue none ⟨["Hal"], some "boom", Except.ok ""⟩
        ⟨["E"], none, Except.ok ""⟩ sessionStart).1 = sessionStart
    ∧ (handle_continue none ⟨["Hal"], some "boom", Except.ok ""⟩
        ⟨["E"], none, Except.ok ""⟩ sessionStart).2.getLast? =
        some (Event.errorEvent ("Failed to continue: " ++ "boom"))
    ∧ route_next_speaker (handle_continue none ⟨["Hal"], some "boom", Except.ok ""⟩
        ⟨["E"], none, Except.ok ""⟩ sessionStart).1 = route_next_speaker sessionStart :=
  C4_generation_failure_aborts sessionStart true ⟨[("Hal", false)], some "boom", 0⟩ "boom" 1
    sessionStart (fun _ => "agent_a") (fun _ => ⟨["Hal"], some "boom", Except.ok ""⟩)
    ⟨["E"], none, Except.ok ""⟩ 4 "boom"
    sessionStart ⟨["Hal"], some "boom", Except.ok ""⟩ ⟨["E"], none, Except.ok ""⟩ "boom"
    rfl rfl rfl rfl rfl (Or.inl (by decide))

lemma countP_turn_events (intrAt : Option Nat) (t : Nat) (s : SimState) (isA : Bool)
    (node : NodeRun) (hne : node.err = none) :
    (agentStreamTurn intrAt t s isA node).events.countP isAgentMessageEv = 1 := by
  rw [agentStreamTurn_ok intrAt t s isA node hne]
  have hce : (turnConsume intrAt t s isA node).events.countP isAgentMessageEv = 0 :=
    List.countP_eq_zero.mpr (fun a ha => by
      rw [consumeStream_no_agent_message intrAt _ _ node.yields t "" a ha]
      simp)
  simp [List.countP_cons, List.countP_append, hce, isAgentMessageEv]


lemma singleAgentTurn_ok_parts (gen : LLMTurn) (s : SimState) (isA : Bool)
    (hnode : (if isA then agent_a_node_streaming gen else agent_b_node_streaming gen).err
      = none) :
    (singleAgentTurn none gen s isA).events.countP isAgentMessageEv = 1
    ∧ (∃ nxt nm, (singleAgentTurn none gen s isA).events.getLast? =
        some (Event.waitingForDecision nxt nm s.agent_a_config.name s.agent_b_config.name))
    ∧ (singleAgentTurn none gen s isA).state.turns = s.turns + 1
    ∧ (singleAgentTurn none gen s isA).err = none := by
  have hcount := countP_turn_events none 0 s isA
    (if isA then agent_a_node_streaming gen else agent_b_node_streaming gen) hnode
  have hturn := agentStreamTurn_ok none 0 s isA
    (if isA then agent_a_node_streaming gen else agent_b_node_streaming gen) hnode
  unfold singleAgentTurn
  dsimp only
  rw [hturn] at hcount ⊢
  dsimp only
  refine ⟨?_, ⟨_, _, List.getLast?_concat _⟩, rfl, rfl⟩
  rw [List.countP_append, hcount]
  rfl

lemma route_explicit_speaker (s : SimState) (v : String) (hs : s.should_stop = false)
    (hn : s.next_speaker = some v) (hv : isTruthyOpt (some v) = true) :
    route_next_speaker s = v := by
  unfold route_next_speaker
  rw [hs, hn, hv]
  simp

/-- C2: spec-modelled single-turn mode.  Whenever the routing decision is an
agent (which holds after `start_session` and after `add_human_message`, the
states reached by the `start_session`/`user_message`/`continue` triggers) and
generation succeeds, `run_single_turn` executes exactly one agent turn —
exactly one `agent_message` event, `turns` incremented once — and its last
emitted event is `waiting_for_decision` carrying a suggested next speaker,
its display name and both agent names. -/
theorem C2_single_turn_waiting_for_decision
    (s : SimState) (gen evalGen : LLMTurn)
    (sid mode : String) (aCfg bCfg : AgentConfig) (sc ur : Option String)
    (s2 : SimState) (c role : String)
    (h2 : route_next_speaker s = "agent_a" ∨ route_next_speaker s = "agent_b")
    (h3 : gen.streamErr = none)
    (h4 : s2.should_stop = false)
    (h5 : role = "mediator" ∨ role = "agent_a" ∨ role = "agent_b") :
    (run_single_turn none gen evalGen s).events.countP isAgentMessageEv = 1
    ∧ (∃ nxt nm, (run_single_turn none gen evalGen s).events.getLast? =
        some (Event.waitingForDecision nxt nm s.agent_a_config.name s.agent_b_config.name))
    ∧ (run_single_turn none gen evalGen s).state.turns = s.turns + 1
    ∧ (run_single_turn none gen evalGen s).err = none
    ∧ (start_session sid mode aCfg bCfg sc ur).should_stop = false
    ∧ route_next_speaker (start_session sid mode aCfg bCfg sc ur) = "agent_a"
    ∧ (add_human_message s2 c role).should_stop = false
    ∧ (route_next_speaker (add_human_message s2 c role) = "agent_a"
        ∨ route_next_speaker (add_human_message s2 c role) = "agent_b") := by
  have hmain :
      (run_single_turn none gen evalGen s).events.countP isAgentMessageEv = 1
      ∧ (∃ nxt nm, (run_single_turn none gen evalGen s).events.getLast? =
          some (Event.waitingForDecision nxt nm s.agent_a_config.name s.agent_b_config.name))
      ∧ (run_single_turn none gen evalGen s).state.turns = s.turns + 1
      ∧ (run_single_turn none gen evalGen s).err = none := by
    rcases h2 with h | h
    · have hnode : (if true then agent_a_node_streaming gen
          else agent_b_node_streaming gen).err = none := by
        simp [agent_a_node_err, h3]
      have hparts := singleAgentTurn_ok_parts gen s true hnode
      unfold run_single_turn
      rw [h, if_pos rfl]
      exact hparts
    · have hnode : (if false then agent_a_node_streaming gen
          else agent_b_node_streaming gen).err = none := by
        simp [agent_b_node_err_none gen h3]
      have hparts := singleAgentTurn_ok_parts gen s false hnode
      unfold run_single_turn
      rw [h, if_neg (by decide), if_pos rfl]
      exact hparts
  have hstop6 : (add_human_message s2 c role).should_stop = false := by
    unfold add_human_message
    split_ifs <;> exact h4
  have hroute7 : route_next_speaker (add_human_message s2 c role) = "agent_a"
      ∨ route_next_speaker (add_human_message s2 c role) = "agent_b" := by
    rcases h5 with h5 | h5 | h5 <;> subst h5
    · have heq : add_human_message s2 c "mediator" =
          { s2 with
              messages := s2.messages ++
                [⟨PyMsgKind.human, "[MEDIATOR]: " ++ c, some "mediator"⟩],
              next_speaker := some "agent_a" } := by
        unfold add_human_message
        rw [if_pos rfl]
      exact Or.inl (route_explicit_speaker _ "agent_a" (by rw [heq]; exact h4)
        (by rw [heq]) rfl)
    · have heq : add_human_message s2 c "agent_a" =
          { s2 with
              messages := s2.messages ++
                [⟨PyMsgKind.human, s2.agent_a_config.name ++ ": " ++ c, some "agent_a"⟩],
              next_speaker := some "agent_b" } := by
        unfold add_human_message
        rw [if_neg (by decide), if_pos rfl]
      exact Or.inr (route_explicit_speaker _ "agent_b" (by rw [heq]; exact h4)
        (by rw [heq]) rfl)
    · have heq : add_human_message s2 c "agent_b" =
          { s2 with
              messages := s2.messages ++
                [⟨PyMsgKind.human, s2.agent_b_config.name ++ ": " ++ c, some "agent_b"⟩],
              next_speaker := some "agent_a" } := by
        unfold add_human_message
        rw [if_neg (by decide), if_neg (by decide), if_pos rfl]
      exact Or.inl (route_explicit_speaker _ "agent_a" (by rw [heq]; exact h4)
        (by rw [heq]) rfl)
  exact ⟨hmain.1, hmain.2.1, hmain.2.2.1, hmain.2.2.2, rfl, rfl, hstop6, hroute7⟩

/-- C2 witness: a fresh mediator session, one successful streamed turn. -/
theorem C2_witness :
    (run_single_turn none ⟨["Hi du."], none, Except.ok ""⟩ ⟨["E"], none, Except.ok ""⟩
        sessionStart).events.countP isAgentMessageEv = 1
    ∧ (∃ nxt nm, (run_single_turn none ⟨["Hi du."], none, Except.ok ""⟩
        ⟨["E"], none, Except.ok ""⟩ sessionStart).events.getLast? =
        some (Event.waitingForDecision nxt nm sessionStart.agent_a_config.name
          sessionStart.agent_b_config.name))
    ∧ (run_single_turn none ⟨["Hi du."], none, Except.ok ""⟩ ⟨["E"], none, Except.ok ""⟩
        sessionStart).state.turns = sessionStart.turns + 1
    ∧ (run_single_turn none ⟨["Hi du."], none, Except.ok ""⟩ ⟨["E"], none, Except.ok ""⟩
        sessionStart).err = none
    ∧ (start_session "w" "mediator" cfgLisa cfgThomas none none).should_stop = false
    ∧ route_next_speaker (start_session "w" "mediator" cfgLisa cfgThomas none none) = "agent_a"
    ∧ (add_human_message sessionStart "Moment bitte" "mediator").should_stop = false
    ∧ (route_next_speaker (add_human_message sessionStart "Moment bitte" "mediator") = "agent_a"
        ∨ route_next_speaker (add_human_message sessionStart "Moment bitte" "mediator")
          = "agent_b") :=
  C2_single_turn_waiting_for_decision sessionStart ⟨["Hi du."], none, Except.ok ""⟩
    ⟨["E"], none, Except.ok ""⟩ "w" "mediator" cfgLisa cfgThomas none none
    sessionStart "Moment bitte" "mediator"
    (Or.inl (by decide)) rfl rfl (Or.inl rfl)
